import Mathlib

/-!
Shallow embedding of the quota / capacity / check-in core of the
dawaati2 event-access-management server.

Sources embedded:
  * `src/unnamed/part_007` — the relational schema (table shapes);
  * `src/unnamed/part_008` — `DatabaseStorage` (storage operations);
  * `src/server/routes.ts` — the route handlers that implement the
    quota gate, the capacity enforcement, the check-in state machine
    and the access-code generator.

Modelling conventions:
  * ids and role names are `String`; timestamps are `Nat`;
  * SQL integer columns are `Int`, nullable columns are `Option _`;
  * a `Store` value is the visible database state; every storage
    operation is a pure function of the store;
  * JavaScript truthiness on numbers (`0` is falsy) and on strings
    (`""` is falsy) is made explicit at each use site;
  * strings produced by the access-code generator are modelled as
    `List Char`.
-/

/-- schema `users` (part_007, lines 16-26), the fields the core reads. -/
structure User where
  id : String
  name : String
  role : String
  isActive : Bool
deriving Repr, DecidableEq

/-- schema `events` (part_007, lines 29-41), the fields the core reads. -/
structure Event where
  id : String
  name : String
  date : Nat
  eventManagerId : String
  capacityTierId : Option String
  isActive : Bool
deriving Repr, DecidableEq

/-- schema `guests` (part_007, lines 44-57), the fields the core reads. -/
structure Guest where
  id : String
  eventId : String
  name : String
  phone : String
  category : String
  companions : Int
  notes : String
  qrCode : String
  isCheckedIn : Bool
  checkedInAt : Option Nat
  checkedInBy : Option String
deriving Repr, DecidableEq

/-- schema `event_organizers` (part_007, lines 60-65). -/
structure OrganizerAssignment where
  eventId : String
  organizerId : String
deriving Repr, DecidableEq

/-- schema `audit_logs` (part_007, lines 68-76), the fields the core writes. -/
structure AuditEntry where
  eventId : Option String
  userId : String
  action : String
  guestId : Option String
deriving Repr, DecidableEq

/-- schema `capacity_tiers` (part_007, lines 90-99). -/
structure CapacityTier where
  id : String
  name : String
  minGuests : Int
  maxGuests : Option Int
  isUnlimited : Bool
  isActive : Bool
  sortOrder : Int
deriving Repr, DecidableEq

/-- schema `user_tier_quotas` (part_007, lines 102-109), the key and value
fields (the generated id and the timestamps play no role in the logic). -/
structure QuotaRow where
  userId : String
  capacityTierId : String
  quota : Int
deriving Repr, DecidableEq

/-- The visible database state. -/
structure Store where
  users : List User
  events : List Event
  guests : List Guest
  organizers : List OrganizerAssignment
  tiers : List CapacityTier
  quotas : List QuotaRow
  audits : List AuditEntry
deriving Repr, DecidableEq

/-! ### Storage operations (`DatabaseStorage`, part_008) -/

/-- `getUser` (part_008, lines 101-104): first row with the given id. -/
def getUser (s : Store) (id : String) : Option User :=
  s.users.find? (fun u => u.id = id)

/-- `getEvent` (part_008, lines 134-137). -/
def getEvent (s : Store) (id : String) : Option Event :=
  s.events.find? (fun e => e.id = id)

/-- `getGuest` (part_008, lines 162-165). -/
def getGuest (s : Store) (id : String) : Option Guest :=
  s.guests.find? (fun g => g.id = id)

/-- `getGuestByQrCode` (part_008, lines 167-170). -/
def getGuestByQrCode (s : Store) (qrCode : String) : Option Guest :=
  s.guests.find? (fun g => g.qrCode = qrCode)

/-- `getGuestsByEvent` (part_008, lines 172-174). -/
def getGuestsByEvent (s : Store) (eventId : String) : List Guest :=
  s.guests.filter (fun g => g.eventId = eventId)

/-- `checkInGuest` (part_008, lines 195-206): an UNCONDITIONAL update of the
row with the given id — the `where` clause is `eq(guests.id, id)` only, it is
not keyed on the guest still being pending.  Returns the updated store and
the row the update returned. -/
def checkInGuest (s : Store) (id organizerId : String) (now : Nat) :
    Store × Option Guest :=
  let updated := s.guests.map (fun g =>
    if g.id = id then
      { g with isCheckedIn := true, checkedInAt := some now,
               checkedInBy := some organizerId }
    else g)
  ({ s with guests := updated }, updated.find? (fun g => g.id = id))

/-- `getOrganizerEvents` (part_008, lines 224-237): the organizer's
assignments, resolved to events, keeping only active ones. -/
def getOrganizerEvents (s : Store) (organizerId : String) : List Event :=
  (((s.organizers.filter (fun a => a.organizerId = organizerId)).filterMap
      (fun a => getEvent s a.eventId)).filter (fun e => e.isActive = true))

/-- `createAuditLog` (part_008, lines 256-259): append-only. -/
def createAuditLog (s : Store) (entry : AuditEntry) : Store :=
  { s with audits := s.audits ++ [entry] }

/-- `getCapacityTier` (part_008, lines 829-832). -/
def getCapacityTier (s : Store) (id : String) : Option CapacityTier :=
  s.tiers.find? (fun t => t.id = id)

/-- `createCapacityTier` (part_008, lines 834-837). -/
def createCapacityTier (s : Store) (tier : CapacityTier) : Store :=
  { s with tiers := s.tiers ++ [tier] }

/-- `getUserTierQuotas` (part_008, lines 854-856). -/
def getUserTierQuotas (s : Store) (userId : String) : List QuotaRow :=
  s.quotas.filter (fun r => r.userId = userId)

/-- The rows selected by `setUserTierQuota`'s existence query
(part_008, lines 860-864): `where and(eq(userId), eq(capacityTierId))`. -/
def quotaRowsFor (s : Store) (userId capacityTierId : String) : List QuotaRow :=
  s.quotas.filter (fun r =>
    r.userId = userId ∧ r.capacityTierId = capacityTierId)

/-- `setUserTierQuota` (part_008, lines 858-881): select the existing rows
for the (user, tier) pair; if any exist, update them in place, otherwise
insert a fresh row. -/
def setUserTierQuota (s : Store) (userId capacityTierId : String)
    (quota : Int) : Store :=
  let existing := quotaRowsFor s userId capacityTierId
  if existing.length > 0 then
    { s with quotas := s.quotas.map (fun r =>
        if r.userId = userId ∧ r.capacityTierId = capacityTierId then
          { r with quota := quota }
        else r) }
  else
    { s with quotas := s.quotas ++ [⟨userId, capacityTierId, quota⟩] }

/-- `getEventCountByManagerAndTier` (part_008, lines 887-894). -/
def getEventCountByManagerAndTier (s : Store)
    (managerId capacityTierId : String) : Nat :=
  (s.events.filter (fun e =>
    e.eventManagerId = managerId ∧ e.capacityTierId = some capacityTierId)).length

/-- `createGuest` (part_008, lines 176-179). -/
def createGuest (s : Store) (g : Guest) : Store :=
  { s with guests := s.guests ++ [g] }

/-- `createGuests` (part_008, lines 181-184). -/
def createGuests (s : Store) (gs : List Guest) : Store :=
  { s with guests := s.guests ++ gs }

/-- `createEvent` (part_008, lines 147-150). -/
def createEvent (s : Store) (e : Event) : Store :=
  { s with events := s.events ++ [e] }

/-! ### Access-code generation (`generateAccessCode`, routes.ts lines 8-17) -/

/-- The 32-character alphabet of routes.ts line 9; the comment there notes the
confusable characters 0, O, 1, I were removed. -/
def accessCodeAlphabet : List Char :=
  "ABCDEFGHJKLMNPQRSTUVWXYZ23456789".toList

/-- The 12-character raw code (routes.ts lines 10-14): for each of the first
12 random bytes, index the alphabet by the byte modulo the alphabet size. -/
def rawAccessCode (bytes : List Nat) : List Char :=
  (bytes.take 12).map (fun b => accessCodeAlphabet.getD (b % 32) 'A')

/-- `generateAccessCode` (routes.ts lines 8-17): the raw code grouped as
`XXXX-XXXX-XXXX` (slices 0-4, 4-8, 8-12 joined by dashes). -/
def generateAccessCode (bytes : List Nat) : List Char :=
  let code := rawAccessCode bytes
  code.take 4 ++ ['-'] ++ ((code.drop 4).take 4) ++ ['-'] ++ ((code.drop 8).take 4)

/-! ### Check-in handlers (routes.ts) -/

/-- `canBypassOwnership` (routes.ts lines 59-61). -/
def canBypassOwnership (userRole : String) : Bool :=
  userRole = "admin" ∨ userRole = "super_admin"

/-- The authorization block shared verbatim by the two check-in handlers
(routes.ts lines 644-655 by id, lines 1148-1159 by code): organizers must be
assigned to the guest's event, event managers must own it, every other role
passes through. -/
def authorizedFor (s : Store) (u : User) (eventId : String) : Bool :=
  if u.role = "organizer" then
    (getOrganizerEvents s u.id).any (fun e => e.id = eventId)
  else if u.role = "event_manager" then
    match getEvent s eventId with
    | some e => e.eventManagerId = u.id
    | none => false
  else true

/-- The fallback name used when the checking-in user cannot be resolved
(routes.ts line 666: the Arabic literal, JS `||` also falls back on the
empty string). -/
def unknownUserName : String := "غير معروف"

/-- The `checkedInBy` display value of the duplicate response
(routes.ts lines 658-666): the name of the user the guest's `checkedInBy`
resolves to, with the unknown fallback. -/
def checkedInByName (s : Store) (g : Guest) : String :=
  match g.checkedInBy with
  | some uid =>
    match getUser s uid with
    | some u => if u.name = "" then unknownUserName else u.name
    | none => unknownUserName
  | none => unknownUserName

/-- The payload of a duplicate response (routes.ts lines 661-667). -/
structure DuplicateView where
  guest : Guest
  checkedInAt : Option Nat
  checkedInBy : String
deriving Repr, DecidableEq

/-- The responses a check-in handler can produce. `notFound` is the 404
invalid response, `wrongEvent` the 400 event-mismatch response of the code
route, `missingCode` its 400 empty-code response, `forbidden` the 403. -/
inductive CheckInResponse where
  | missingCode
  | notFound
  | wrongEvent
  | forbidden
  | duplicate (v : DuplicateView)
  | success (g : Option Guest)
deriving Repr, DecidableEq

/-- What the read portion of the by-id check-in handler decides
(routes.ts lines 634-668): everything up to, but not including, the
`storage.checkInGuest` write uses the one guest row read at line 635. -/
inductive CheckInReadOutcome where
  | notFound
  | forbidden
  | alreadyChecked (g : Guest)
  | pending (g : Guest)
deriving Repr, DecidableEq

/-- The read phase of `POST /api/guests/:id/check-in`
(routes.ts lines 634-657): read the guest, authorize, branch on the
snapshot's `isCheckedIn`. -/
def checkInReadPhase (s : Store) (u : User) (gid : String) :
    CheckInReadOutcome :=
  match getGuest s gid with
  | none => .notFound
  | some guest =>
    if authorizedFor s u guest.eventId = false then .forbidden
    else if guest.isCheckedIn then .alreadyChecked guest
    else .pending guest

/-- The write phase of `POST /api/guests/:id/check-in`
(routes.ts lines 657-684), applied to the store current at write time:
only the pending branch writes (the unconditional `checkInGuest` update of
line 670 plus the audit append of lines 672-678); the duplicate branch
responds from the snapshot without touching the store. -/
def checkInWritePhase (s : Store) (u : User) (gid : String) (now : Nat) :
    CheckInReadOutcome → CheckInResponse × Store
  | .notFound => (.notFound, s)
  | .forbidden => (.forbidden, s)
  | .alreadyChecked g =>
    (.duplicate ⟨g, g.checkedInAt, checkedInByName s g⟩, s)
  | .pending g =>
    let (s', updated) := checkInGuest s gid u.id now
    (.success updated,
      createAuditLog s' ⟨some g.eventId, u.id, "check_in", some g.id⟩)

/-- `POST /api/guests/:id/check-in` (routes.ts lines 632-688) run without
interference: the write phase applied to the same store the read saw. -/
def checkInById (s : Store) (u : User) (gid : String) (now : Nat) :
    CheckInResponse × Store :=
  checkInWritePhase s u gid now (checkInReadPhase s u gid)

/-- The `code.toUpperCase()` of routes.ts line 1138, modelled for the ASCII
range the access codes live in. -/
def toUpperAscii (s : String) : String :=
  ⟨s.data.map Char.toUpper⟩

/-- `POST /api/check-in/code` (routes.ts lines 1128-1193) run without
interference: empty-code guard, uppercase code lookup, event-scope hint
check, the shared authorization block, then the same duplicate / pending
branches as the by-id route. -/
def checkInByCode (s : Store) (u : User) (code : String)
    (eventId : Option String) (now : Nat) : CheckInResponse × Store :=
  if code = "" then (.missingCode, s)
  else
    match getGuestByQrCode s (toUpperAscii code) with
    | none => (.notFound, s)
    | some guest =>
      if (match eventId with
          | some eid => guest.eventId ≠ eid
          | none => false : Bool) then (.wrongEvent, s)
      else if authorizedFor s u guest.eventId = false then (.forbidden, s)
      else if guest.isCheckedIn then
        (.duplicate ⟨guest, guest.checkedInAt, checkedInByName s guest⟩, s)
      else
        let (s', updated) := checkInGuest s guest.id u.id now
        (.success updated,
          createAuditLog s' ⟨some guest.eventId, u.id, "check_in", some guest.id⟩)

/-- Two concurrent by-id check-in requests interleaved as
read₁, read₂, write₁, write₂ — each request runs exactly the two phases the
handler consists of, but the second request's read happens before the first
request's write lands. -/
def checkInRaceTwo (s0 : Store) (u1 u2 : User) (gid : String)
    (t1 t2 : Nat) : CheckInResponse × CheckInResponse × Store :=
  let r1 := checkInReadPhase s0 u1 gid
  let r2 := checkInReadPhase s0 u2 gid
  let (resp1, s1) := checkInWritePhase s0 u1 gid t1 r1
  let (resp2, s2) := checkInWritePhase s1 u2 gid t2 r2
  (resp1, resp2, s2)

/-- Response discriminator: is this the success kind? -/
def CheckInResponse.isSuccess : CheckInResponse → Bool
  | .success _ => true
  | _ => false

/-! ### Concrete stores used as witnesses and counterexamples -/

/-- An active event owned by manager `mgr1`. -/
def demoEvent : Event :=
  ⟨"e1", "Launch", 1, "mgr1", none, true⟩

/-- A pending guest of `e1` with access code `AAAA-AAAA-AAAA`. -/
def demoPendingGuest : Guest :=
  ⟨"g1", "e1", "Alice", "", "regular", 0, "", "AAAA-AAAA-AAAA", false, none, none⟩

/-- A guest of `e1` already checked in by `orgA` at time 5. -/
def demoCheckedGuest : Guest :=
  ⟨"g2", "e1", "Bob", "", "regular", 0, "", "BBBB-BBBB-BBBB", true,
    some 5, some "orgA"⟩

/-- Organizer A, assigned to `e1`. -/
def orgA : User := ⟨"orgA", "Organizer A", "organizer", true⟩

/-- Organizer B, assigned to `e1`. -/
def orgB : User := ⟨"orgB", "Organizer B", "organizer", true⟩

/-- Organizer Z, assigned to no event. -/
def orgZ : User := ⟨"orgZ", "Organizer Z", "organizer", true⟩

/-- Store for the check-in race: one pending guest, two organizers both
assigned to its event. -/
def raceStore : Store :=
  { users := [orgA, orgB]
    events := [demoEvent]
    guests := [demoPendingGuest]
    organizers := [⟨"e1", "orgA"⟩, ⟨"e1", "orgB"⟩]
    tiers := []
    quotas := []
    audits := [] }

/-- Store whose only guest `g1` is already checked in by `orgA` at time 5. -/
def checkedStore : Store :=
  { users := [orgA, orgB]
    events := [demoEvent]
    guests := [⟨"g1", "e1", "Alice", "", "regular", 0, "", "AAAA-AAAA-AAAA",
      true, some 5, some "orgA"⟩]
    organizers := [⟨"e1", "orgA"⟩, ⟨"e1", "orgB"⟩]
    tiers := []
    quotas := []
    audits := [] }

/-- Store with a pending guest and a checked-in guest in `e1`, and the
unassigned organizer `orgZ` among the users. -/
def leakStore : Store :=
  { users := [orgA, orgZ]
    events := [demoEvent]
    guests := [demoPendingGuest, demoCheckedGuest]
    organizers := [⟨"e1", "orgA"⟩]
    tiers := []
    quotas := []
    audits := [] }

/-! ### Event creation (`POST /api/events`, routes.ts lines 372-435) -/

/-- The request body as the handler reads it: optional `capacityTierId`,
`name` (empty models a falsy name), optional `date` (none models a falsy
date field, routes.ts line 413). -/
structure EventBody where
  capacityTierId : Option String
  name : String
  date : Option Nat
deriving Repr, DecidableEq

/-- The responses of `POST /api/events`. -/
inductive CreateEventResponse where
  | missingTier
  | tierInvalid
  | noPermission
  | quotaExhausted
  | missingFields
  | created (e : Event)
deriving Repr, DecidableEq

/-- The quota the handler resolves for a manager and a tier (routes.ts
lines 390-392): `find` over the manager's quota rows, then
`tierQuota?.quota || 0` — an absent row (and a stored 0) give 0. -/
def managerQuotaFor (s : Store) (userId tierId : String) : Int :=
  (((getUserTierQuotas s userId).find?
      (fun q => q.capacityTierId = tierId)).map (fun q => q.quota)).getD 0

/-- The tier block of the handler (routes.ts lines 382-407), entered only
when a `capacityTierId` was supplied: resolve the tier, reject if missing
or inactive; then, for event managers only, the two quota rejections. -/
def tierGate (s : Store) (u : User) (tierId : String) :
    Option CreateEventResponse :=
  match getCapacityTier s tierId with
  | none => some .tierInvalid
  | some tier =>
    if tier.isActive = false then some .tierInvalid
    else if u.role = "event_manager" then
      let quota := managerQuotaFor s u.id tierId
      if quota = 0 then some .noPermission
      else if (getEventCountByManagerAndTier s u.id tierId : Int) ≥ quota then
        some .quotaExhausted
      else none
    else none

/-- Does the supplied tier id resolve to an existing, active tier?
(The resolve-and-active check of routes.ts lines 383-386.) -/
def tierActiveOk (s : Store) (tierId : String) : Bool :=
  match getCapacityTier s tierId with
  | some tier => tier.isActive
  | none => false

/-- `POST /api/events` (routes.ts lines 372-435): mandatory tier for event
managers (lines 377-379), the tier/quota gate when a tier is supplied
(lines 382-407), the name/date validation (lines 417-420), then the insert
and the audit append (lines 422-429). -/
def createEventRoute (s : Store) (u : User) (b : EventBody)
    (freshId : String) : CreateEventResponse × Store :=
  if u.role = "event_manager" ∧ b.capacityTierId = none then (.missingTier, s)
  else
    match (match b.capacityTierId with
           | some t => tierGate s u t
           | none => none) with
    | some r => (r, s)
    | none =>
      if b.name = "" ∨ b.date = none then (.missingFields, s)
      else
        let ev : Event :=
          ⟨freshId, b.name, b.date.getD 0, u.id, b.capacityTierId, true⟩
        (.created ev,
          createAuditLog (createEvent s ev)
            ⟨some freshId, u.id, "create_event", none⟩)

/-- Manager `mgr1`, an event manager. -/
def mgr1 : User := ⟨"mgr1", "Manager One", "event_manager", true⟩

/-- An admin user. -/
def adminU : User := ⟨"adm1", "Admin One", "admin", true⟩

/-- An active, non-unlimited tier capped at 50 guests. -/
def smallTier : CapacityTier := ⟨"small", "Small", 0, some 50, false, true, 0⟩

/-- Store for the quota-gate witnesses: `mgr1` has quota 2 on `small` and
one existing `small` event. -/
def quotaStore : Store :=
  { users := [mgr1, adminU]
    events := [⟨"e10", "Prev", 1, "mgr1", some "small", true⟩]
    guests := []
    organizers := []
    tiers := [smallTier]
    quotas := [⟨"mgr1", "small", 2⟩]
    audits := [] }

/-! ### Guest capacity enforcement (routes.ts lines 504-630) -/

/-- The ownership check of the guest routes (routes.ts lines 512-514 and
584-586): admins and super admins bypass, otherwise only the event's
manager. -/
def ownsOrBypasses (u : User) (ev : Event) : Bool :=
  canBypassOwnership u.role || ev.eventManagerId = u.id

/-- One parsed spreadsheet row with the id the insert will assign and the
access code generated for it (routes.ts lines 541-549). -/
structure GuestRecord where
  id : String
  name : String
  phone : String
  category : String
  companions : Int
  notes : String
  qrCode : String
deriving Repr, DecidableEq

/-- The guest row a record inserts (routes.ts lines 541-549). -/
def GuestRecord.toGuest (r : GuestRecord) (eventId : String) : Guest :=
  ⟨r.id, eventId, r.name, r.phone, r.category, r.companions, r.notes,
    r.qrCode, false, none, none⟩

/-- What the capacity block of the bulk-import route decides
(routes.ts lines 525-539). -/
inductive ImportCapacity where
  | unlimited
  | full
  | limited (remaining : Nat)
deriving Repr, DecidableEq

/-- The capacity block of `POST /api/events/:id/upload-guests`
(routes.ts lines 525-539): no limit without a tier, with an unresolvable
tier, an unlimited tier or a falsy `maxGuests` (absent or 0); otherwise
`remaining = maxGuests - currentGuests.length`, full when `remaining ≤ 0`. -/
def importCapacity (s : Store) (ev : Event) : ImportCapacity :=
  match ev.capacityTierId with
  | none => .unlimited
  | some tid =>
    match getCapacityTier s tid with
    | none => .unlimited
    | some tier =>
      if tier.isUnlimited then .unlimited
      else
        match tier.maxGuests with
        | none => .unlimited
        | some m =>
          if m = 0 then .unlimited
          else
            let current := (getGuestsByEvent s ev.id).length
            if m - (current : Int) ≤ 0 then .full
            else .limited (m - (current : Int)).toNat

/-- The responses of the bulk-import route; `ok` carries the `count`
field of the JSON response (routes.ts line 568). -/
inductive UploadResponse where
  | notFound
  | forbidden
  | eventFull
  | ok (count : Nat)
deriving Repr, DecidableEq

/-- `POST /api/events/:id/upload-guests` (routes.ts lines 504-573):
resolve the event, ownership check, the capacity block — which REJECTS the
whole batch when remaining ≤ 0 (lines 532-536) — then truncation to the
remaining capacity (lines 552-557), the insert and the audit append. -/
def uploadGuestsRoute (s : Store) (u : User) (eid : String)
    (records : List GuestRecord) : UploadResponse × Store :=
  match getEvent s eid with
  | none => (.notFound, s)
  | some ev =>
    if ownsOrBypasses u ev = false then (.forbidden, s)
    else
      match importCapacity s ev with
      | .full => (.eventFull, s)
      | .unlimited =>
        let gs := records.map (fun r => r.toGuest eid)
        (.ok gs.length,
          createAuditLog (createGuests s gs)
            ⟨some eid, u.id, "upload_guests", none⟩)
      | .limited rem =>
        let gs := records.map (fun r => r.toGuest eid)
        let limited := if gs.length > rem then gs.take rem else gs
        (.ok limited.length,
          createAuditLog (createGuests s limited)
            ⟨some eid, u.id, "upload_guests", none⟩)

/-- The body of the single-guest add (routes.ts line 601). -/
structure AddGuestBody where
  name : String
  phone : String
  category : String
  companions : Int
  notes : String
deriving Repr, DecidableEq

/-- JavaScript `String.prototype.trim`: strip whitespace at both ends. -/
def jsTrim (s : String) : String :=
  ⟨((s.data.dropWhile (fun c => c.isWhitespace)).reverse.dropWhile
      (fun c => c.isWhitespace)).reverse⟩

/-- The capacity check of the single-add route (routes.ts lines 588-599):
blocked exactly when the event's tier resolves, is not unlimited, has a
truthy `maxGuests` (present and nonzero), and the current guest count has
reached it. -/
def addGuestBlocked (s : Store) (ev : Event) : Bool :=
  match ev.capacityTierId with
  | none => false
  | some tid =>
    match getCapacityTier s tid with
    | none => false
    | some tier =>
      if tier.isUnlimited then false
      else
        match tier.maxGuests with
        | none => false
        | some m =>
          if m = 0 then false
          else decide (((getGuestsByEvent s ev.id).length : Int) ≥ m)

/-- The responses of the single-guest add. -/
inductive AddGuestResponse where
  | notFound
  | forbidden
  | eventFull
  | nameRequired
  | ok (g : Guest)
deriving Repr, DecidableEq

/-- `POST /api/events/:id/guests` (routes.ts lines 576-630): resolve the
event, ownership check, the capacity rejection (lines 588-599), the
required-name validation (lines 603-605), then the insert with the field
defaults of lines 607-615 and the audit append. -/
def addGuestRoute (s : Store) (u : User) (eid : String) (b : AddGuestBody)
    (freshId freshCode : String) : AddGuestResponse × Store :=
  match getEvent s eid with
  | none => (.notFound, s)
  | some ev =>
    if ownsOrBypasses u ev = false then (.forbidden, s)
    else if addGuestBlocked s ev then (.eventFull, s)
    else if jsTrim b.name = "" then (.nameRequired, s)
    else
      let g : Guest := ⟨freshId, eid, jsTrim b.name, b.phone,
        (if b.category = "" then "regular" else b.category), b.companions,
        b.notes, freshCode, false, none, none⟩
      (.ok g,
        createAuditLog (createGuest s g)
          ⟨some eid, u.id, "add_guest", some freshId⟩)

/-! ### Capacity-tier create/update (routes.ts lines 1644-1680) -/

/-- The zod body of `POST /api/capacity-tiers` (routes.ts lines 1646-1653);
`none` models an absent field (defaults are applied after parsing). -/
structure TierCreateBody where
  name : String
  minGuests : Option Int
  maxGuests : Option Int
  isUnlimited : Option Bool
  isActive : Option Bool
  sortOrder : Option Int
deriving Repr, DecidableEq

/-- zod parse success (routes.ts lines 1646-1657): `name` of length ≥ 1,
`minGuests ≥ 0` when supplied (default 0), `maxGuests` nullable and
optional — nothing else is constrained. -/
def tierBodyValid (b : TierCreateBody) : Bool :=
  (b.name ≠ "" : Bool)
    && (match b.minGuests with | some n => decide (0 ≤ n) | none => true)

/-- The responses of the tier create/update routes. -/
inductive TierResponse where
  | badRequest
  | notFoundTier
  | okTier (t : CapacityTier)
deriving Repr, DecidableEq

/-- `POST /api/capacity-tiers` (routes.ts lines 1644-1665): parse with the
zod schema, then store the parsed data unchanged. -/
def createCapacityTierRoute (s : Store) (b : TierCreateBody)
    (freshId : String) : TierResponse × Store :=
  if tierBodyValid b = false then (.badRequest, s)
  else
    let tier : CapacityTier := ⟨freshId, b.name, b.minGuests.getD 0,
      b.maxGuests, b.isUnlimited.getD false, b.isActive.getD true,
      b.sortOrder.getD 0⟩
    (.okTier tier, createCapacityTier s tier)

/-- The PATCH body: a partial update; for `maxGuests` the outer option is
field presence and the inner option the nullable column value. -/
structure TierPatchBody where
  name : Option String
  minGuests : Option Int
  maxGuests : Option (Option Int)
  isUnlimited : Option Bool
  isActive : Option Bool
  sortOrder : Option Int
deriving Repr, DecidableEq

/-- The drizzle `set` of `updateCapacityTier` (part_008, lines 839-842):
supplied fields overwrite, absent fields are kept. -/
def applyTierPatch (t : CapacityTier) (p : TierPatchBody) : CapacityTier :=
  ⟨t.id, p.name.getD t.name, p.minGuests.getD t.minGuests,
    p.maxGuests.getD t.maxGuests, p.isUnlimited.getD t.isUnlimited,
    p.isActive.getD t.isActive, p.sortOrder.getD t.sortOrder⟩

/-- `PATCH /api/capacity-tiers/:id` (routes.ts lines 1668-1680): a 404 when
the tier does not exist, otherwise `req.body` is applied verbatim — the
handler performs no validation of the body at all. -/
def updateCapacityTierRoute (s : Store) (tid : String) (p : TierPatchBody) :
    TierResponse × Store :=
  match getCapacityTier s tid with
  | none => (.notFoundTier, s)
  | some _ =>
    let updated := s.tiers.map (fun t =>
      if t.id = tid then applyTierPatch t p else t)
    match updated.find? (fun t => t.id = tid) with
    | some t => (.okTier t, { s with tiers := updated })
    | none => (.notFoundTier, { s with tiers := updated })

/-! ### Further concrete stores -/

/-- A non-unlimited tier capped at 2 guests. -/
def tinyTier : CapacityTier := ⟨"tiny", "Tiny", 0, some 2, false, true, 0⟩

/-- A non-unlimited tier whose `maxGuests` is 0 — storable, since tier
creation never checks the relation between the capacity fields. -/
def zeroTier : CapacityTier := ⟨"zero", "Zero", 0, some 0, false, true, 0⟩

/-- Store with event `e1` on the `tiny` tier already holding 2 guests, and
event `e0` on the `zero` tier holding none. -/
def capacityStore : Store :=
  { users := [mgr1]
    events := [⟨"e1", "Launch", 1, "mgr1", some "tiny", true⟩,
      ⟨"e0", "Empty", 1, "mgr1", some "zero", true⟩,
      ⟨"e2", "Fresh", 1, "mgr1", some "tiny", true⟩]
    guests := [⟨"g1", "e1", "Alice", "", "regular", 0, "", "AAAA-AAAA-AAAA",
        false, none, none⟩,
      ⟨"g2", "e1", "Bob", "", "regular", 0, "", "BBBB-BBBB-BBBB",
        false, none, none⟩]
    organizers := []
    tiers := [tinyTier, zeroTier]
    quotas := []
    audits := [] }

/-- A record a bulk import would insert. -/
def demoRecord : GuestRecord :=
  ⟨"g3", "Carol", "", "regular", 0, "", "CCCC-CCCC-CCCC"⟩

/-- The empty store. -/
def emptyStore : Store := ⟨[], [], [], [], [], [], []⟩

/-- Response discriminator: did the single-guest add create a guest? -/
def AddGuestResponse.isOk : AddGuestResponse → Bool
  | .ok _ => true
  | _ => false

lemma accessCodeAlphabet_length : accessCodeAlphabet.length = 32 := by decide

lemma getD_alphabet_mem (b : Nat) :
    accessCodeAlphabet.getD (b % 32) 'A' ∈ accessCodeAlphabet := by
  have hlt : b % 32 < accessCodeAlphabet.length := by
    rw [accessCodeAlphabet_length]; exact Nat.mod_lt b (by norm_num)
  rw [List.getD_eq_getElem accessCodeAlphabet 'A' hlt]
  exact List.getElem_mem hlt

lemma rawAccessCode_mem (bytes : List Nat) :
    ∀ ch ∈ rawAccessCode bytes, ch ∈ accessCodeAlphabet := by
  intro ch hch
  simp only [rawAccessCode, List.mem_map] at hch
  obtain ⟨b, _, rfl⟩ := hch
  exact getD_alphabet_mem b

lemma rawAccessCode_length (bytes : List Nat) (h : bytes.length = 12) :
    (rawAccessCode bytes).length = 12 := by
  simp [rawAccessCode, h]

/-- C9: every access code produced by the generator, for every possible
random byte input of the length the generator draws (12 bytes), is three
dash-separated 4-character groups — 14 characters total, the 12 non-dash
characters drawn from the 32-character alphabet
`ABCDEFGHJKLMNPQRSTUVWXYZ23456789`, which contains none of the
visually-confusable characters 0, O, 1, I. -/
theorem access_code_format (bytes : List Nat) (h : bytes.length = 12) :
    (∃ g1 g2 g3 : List Char,
        generateAccessCode bytes = g1 ++ ['-'] ++ g2 ++ ['-'] ++ g3
        ∧ g1.length = 4 ∧ g2.length = 4 ∧ g3.length = 4
        ∧ (∀ ch ∈ g1 ++ g2 ++ g3, ch ∈ accessCodeAlphabet))
    ∧ (generateAccessCode bytes).length = 14
    ∧ accessCodeAlphabet.length = 32
    ∧ '0' ∉ accessCodeAlphabet ∧ 'O' ∉ accessCodeAlphabet
    ∧ '1' ∉ accessCodeAlphabet ∧ 'I' ∉ accessCodeAlphabet := by
  have hr := rawAccessCode_length bytes h
  have hmem := rawAccessCode_mem bytes
  constructor
  · refine ⟨(rawAccessCode bytes).take 4,
      ((rawAccessCode bytes).drop 4).take 4,
      ((rawAccessCode bytes).drop 8).take 4, rfl, ?_, ?_, ?_, ?_⟩
    · simp [hr]
    · simp [hr]
    · simp [hr]
    · intro ch hch
      rcases List.mem_append.mp hch with hch | hch
      · rcases List.mem_append.mp hch with hch | hch
        · exact hmem ch (List.mem_of_mem_take hch)
        · exact hmem ch (List.mem_of_mem_drop (List.mem_of_mem_take hch))
      · exact hmem ch (List.mem_of_mem_drop (List.mem_of_mem_take hch))
  · refine ⟨?_, by decide, by decide, by decide, by decide, by decide⟩
    simp [generateAccessCode, hr]

/-- Witness for `access_code_format` at a concrete 12-byte input. -/
theorem access_code_format_witness :
    ([0, 1, 2, 3, 4, 5, 250, 251, 252, 253, 254, 255] : List Nat).length = 12
    ∧ (generateAccessCode [0, 1, 2, 3, 4, 5, 250, 251, 252, 253, 254, 255]).length = 14 :=
  ⟨by decide,
    (access_code_format [0, 1, 2, 3, 4, 5, 250, 251, 252, 253, 254, 255]
      (by decide)).2.1⟩

/-- C1: the claimed exactly-once guarantee fails on the code.  Two
concurrent check-in requests for the same pending guest, interleaved as
read₁, read₂, write₁, write₂ (each request being exactly the read and write
phases the handler consists of), BOTH yield the SUCCESS kind — not one
SUCCESS and one DUPLICATE — and the second write silently overwrites the
first actor's stamp, because `checkInGuest` updates unconditionally on the
guest id: applied to an already-checked-in guest it still rewrites
`checkedInAt`/`checkedInBy`, so the transition is a separate read followed
by an unconditional write, not a compare-and-swap on the pending state. -/
theorem checkIn_race_two_successes :
    (checkInRaceTwo raceStore orgA orgB "g1" 10 20).1.isSuccess = true
    ∧ (checkInRaceTwo raceStore orgA orgB "g1" 10 20).2.1.isSuccess = true
    ∧ (getGuest (checkInRaceTwo raceStore orgA orgB "g1" 10 20).2.2 "g1").map
        (fun g => g.checkedInBy) = some (some "orgB")
    ∧ (checkInGuest checkedStore "g1" "orgB" 99).2.map (fun g => g.checkedInBy)
        = some (some "orgB") := by
  refine ⟨by decide, by decide, by decide, by decide⟩

/-- C3: for a guest already checked in, every authorized check-in call — by
id or by code — returns the DUPLICATE kind carrying the original
`checkedInAt` timestamp and the (resolved) identity of the original
checking-in actor, leaves the store completely unchanged, and returns the
same payload at any call time, hence under arbitrarily many repetitions. -/
theorem duplicate_checkin_idempotent (s : Store) (u : User) (gid : String)
    (g : Guest) (now now2 : Nat)
    (hg : getGuest s gid = some g)
    (hc : g.isCheckedIn = true)
    (ha : authorizedFor s u g.eventId = true) :
    checkInById s u gid now
      = (.duplicate ⟨g, g.checkedInAt, checkedInByName s g⟩, s)
    ∧ checkInById s u gid now = checkInById s u gid now2
    ∧ ∀ (c : String) (hint : Option String), c ≠ "" →
        getGuestByQrCode s (toUpperAscii c) = some g →
        (hint = none ∨ hint = some g.eventId) →
        checkInByCode s u c hint now
          = (.duplicate ⟨g, g.checkedInAt, checkedInByName s g⟩, s) := by
  have hbyId : ∀ t : Nat, checkInById s u gid t
      = (.duplicate ⟨g, g.checkedInAt, checkedInByName s g⟩, s) := by
    intro t
    simp only [checkInById, checkInReadPhase, hg, ha, hc]
    simp [checkInWritePhase]
  refine ⟨hbyId now, (hbyId now).trans (hbyId now2).symm, ?_⟩
  intro c hint hcne hcode hhint
  simp only [checkInByCode, if_neg hcne, hcode]
  rcases hhint with rfl | rfl
  · simp [ha, hc]
  · simp [ha, hc]

/-- Witness for `duplicate_checkin_idempotent`: organizer A re-scans the
already-checked-in guest `g2` of `leakStore`. -/
theorem duplicate_checkin_idempotent_witness :
    getGuest leakStore "g2" = some demoCheckedGuest
    ∧ demoCheckedGuest.isCheckedIn = true
    ∧ authorizedFor leakStore orgA demoCheckedGuest.eventId = true
    ∧ checkInById leakStore orgA "g2" 42
      = (.duplicate ⟨demoCheckedGuest, demoCheckedGuest.checkedInAt,
          checkedInByName leakStore demoCheckedGuest⟩, leakStore) :=
  ⟨by decide, by decide, by decide,
    (duplicate_checkin_idempotent leakStore orgA "g2" demoCheckedGuest 42 43
      (by decide) (by decide) (by decide)).1⟩

/-- C5 counterexample: the unauthorized organizer `orgZ` receives the 404
invalid response for an unknown code but the 403 forbidden response for an
existing (pending) guest's code, so the response is NOT the same whether
the supplied code is unknown or belongs to a guest — the guest's existence
is revealed, refuting the claim as stated. -/
theorem checkin_code_reveals_existence :
    checkInByCode leakStore orgZ "ZZZZ-ZZZZ-ZZZZ" none 0 = (.notFound, leakStore)
    ∧ checkInByCode leakStore orgZ "AAAA-AAAA-AAAA" none 0 = (.forbidden, leakStore)
    ∧ (checkInByCode leakStore orgZ "ZZZZ-ZZZZ-ZZZZ" none 0).1
        ≠ (checkInByCode leakStore orgZ "AAAA-AAAA-AAAA" none 0).1 :=
  ⟨by decide, by decide, by decide⟩

/-- C5 amended: the authorization rejection is produced after the guest is
resolved but before the check-in-state branch, so an unauthorized actor
receives exactly the same forbidden response — with no guest data and no
state change — whether the target guest is pending or already checked in
(the response below does not depend on the guest's fields at all); only an
unknown code/id yields the distinct not-found response. -/
theorem unauthorized_checkin_uniform (s : Store) (u : User) (g : Guest)
    (now : Nat)
    (ha : authorizedFor s u g.eventId = false) :
    (∀ (c : String) (hint : Option String), c ≠ "" →
      getGuestByQrCode s (toUpperAscii c) = some g →
      (hint = none ∨ hint = some g.eventId) →
      checkInByCode s u c hint now = (.forbidden, s))
    ∧ (∀ gid, getGuest s gid = some g →
      checkInById s u gid now = (.forbidden, s)) := by
  constructor
  · intro c hint hcne hcode hhint
    simp only [checkInByCode, if_neg hcne, hcode]
    rcases hhint with rfl | rfl
    · simp [ha]
    · simp [ha]
  · intro gid hg
    simp only [checkInById, checkInReadPhase, hg, ha]
    simp [checkInWritePhase]

/-- Witness for `unauthorized_checkin_uniform`: `orgZ` and the pending
guest of `leakStore`; the pending guest's code and the checked-in guest
both produce the same forbidden response (see also
`checkin_code_reveals_existence` for the contrast with an unknown code). -/
theorem unauthorized_checkin_uniform_witness :
    authorizedFor leakStore orgZ demoPendingGuest.eventId = false
    ∧ checkInByCode leakStore orgZ "AAAA-AAAA-AAAA" none 7
      = (.forbidden, leakStore) :=
  ⟨by decide,
    (unauthorized_checkin_uniform leakStore orgZ demoPendingGuest 7
      (by decide)).1 "AAAA-AAAA-AAAA" none (by decide) (by decide)
      (Or.inl rfl)⟩

lemma tierGate_manager (s : Store) (u : User) (t : String)
    (hrole : u.role = "event_manager") :
    tierGate s u t =
      if tierActiveOk s t = false then some .tierInvalid
      else if managerQuotaFor s u.id t = 0 then some .noPermission
      else if (getEventCountByManagerAndTier s u.id t : Int)
          ≥ managerQuotaFor s u.id t then some .quotaExhausted
      else none := by
  unfold tierGate tierActiveOk
  cases hc : getCapacityTier s t with
  | none => simp
  | some tier =>
    cases ha : tier.isActive with
    | false => simp [ha]
    | true => simp [ha, hrole]

/-- C2: the quota gate for an event manager creating an event on tier `t`
with valid remaining fields: a missing or inactive tier is rejected as
tier-invalid; quota `Q = 0` (no row, or a stored 0) is rejected as
no-permission; `Q > 0` with live used count `U ≥ Q` is rejected as
quota-exhausted; and the creation succeeds if and only if the tier is
active and `U < Q`. -/
theorem manager_quota_gate (s : Store) (u : User) (t : String)
    (b : EventBody) (fid : String)
    (hrole : u.role = "event_manager")
    (htier : b.capacityTierId = some t)
    (hname : b.name ≠ "") (hdate : b.date ≠ none) :
    (tierActiveOk s t = false →
      (createEventRoute s u b fid).1 = .tierInvalid)
    ∧ (tierActiveOk s t = true → managerQuotaFor s u.id t = 0 →
      (createEventRoute s u b fid).1 = .noPermission)
    ∧ (tierActiveOk s t = true → 0 < managerQuotaFor s u.id t →
      (getEventCountByManagerAndTier s u.id t : Int)
          ≥ managerQuotaFor s u.id t →
      (createEventRoute s u b fid).1 = .quotaExhausted)
    ∧ ((∃ e, (createEventRoute s u b fid).1 = .created e) ↔
      (tierActiveOk s t = true ∧
        (getEventCountByManagerAndTier s u.id t : Int)
          < managerQuotaFor s u.id t)) := by
  have hgate := tierGate_manager s u t hrole
  have hb : (u.role = "event_manager" ∧ b.capacityTierId = none) = False := by
    simp [htier]
  refine ⟨?_, ?_, ?_, ?_⟩
  · intro hbad
    simp [createEventRoute, hb, htier, hgate, hbad]
  · intro hok hq
    simp [createEventRoute, hb, htier, hgate, hok, hq]
  · intro hok hqpos hused
    have hq : managerQuotaFor s u.id t ≠ 0 := by omega
    simp [createEventRoute, hb, htier, hgate, hok, hq, hused]
  · constructor
    · intro ⟨e, he⟩
      by_cases hok : tierActiveOk s t = true
      · by_cases hq : managerQuotaFor s u.id t = 0
        · simp [createEventRoute, hb, htier, hgate, hok, hq] at he
        · by_cases hused : (getEventCountByManagerAndTier s u.id t : Int)
              ≥ managerQuotaFor s u.id t
          · simp [createEventRoute, hb, htier, hgate, hok, hq, hused] at he
          · exact ⟨hok, by omega⟩
      · rw [Bool.not_eq_true] at hok
        simp [createEventRoute, hb, htier, hgate, hok] at he
    · intro ⟨hok, hlt⟩
      have hq : managerQuotaFor s u.id t ≠ 0 := by
        have : (0 : Int) ≤ (getEventCountByManagerAndTier s u.id t : Int) := by
          positivity
        omega
      have hused : ¬ (getEventCountByManagerAndTier s u.id t : Int)
          ≥ managerQuotaFor s u.id t := by omega
      refine ⟨⟨fid, b.name, b.date.getD 0, u.id, b.capacityTierId, true⟩, ?_⟩
      simp [createEventRoute, hb, htier, hgate, hok, hq, hused, hname, hdate]

/-- Witness for `manager_quota_gate`: `mgr1` with quota 2 and one existing
`small` event creates a second one (used 1 < quota 2). -/
theorem manager_quota_gate_witness :
    mgr1.role = "event_manager"
    ∧ tierActiveOk quotaStore "small" = true
    ∧ (getEventCountByManagerAndTier quotaStore mgr1.id "small" : Int)
        < managerQuotaFor quotaStore mgr1.id "small"
    ∧ (∃ e, (createEventRoute quotaStore mgr1
        ⟨some "small", "Party", some 9⟩ "e11").1 = .created e) :=
  ⟨by decide, by decide, by decide,
    (manager_quota_gate quotaStore mgr1 "small"
      ⟨some "small", "Party", some 9⟩ "e11" (by decide) rfl (by decide)
      (by decide)).2.2.2.mpr ⟨by decide, by decide⟩⟩

/-- C10: when the acting user's role is admin or super_admin, event
creation performs no quota check: supplying a tier is optional; any
existing-and-active tier leads to creation (given the name/date fields);
and the outcome does not depend on the quota table or on the set of
existing events at all. -/
theorem admin_event_creation_skips_quota (s : Store) (u : User)
    (b : EventBody) (fid : String)
    (hrole : u.role = "admin" ∨ u.role = "super_admin")
    (hname : b.name ≠ "") (hdate : b.date ≠ none) :
    (b.capacityTierId = none →
      ∃ e, (createEventRoute s u b fid).1 = .created e)
    ∧ (∀ t, b.capacityTierId = some t → tierActiveOk s t = true →
      ∃ e, (createEventRoute s u b fid).1 = .created e)
    ∧ (∀ qs, (createEventRoute { s with quotas := qs } u b fid).1
        = (createEventRoute s u b fid).1)
    ∧ (∀ evs, (createEventRoute { s with events := evs } u b fid).1
        = (createEventRoute s u b fid).1) := by
  have hne : ¬ u.role = "event_manager" := by
    rcases hrole with h | h <;> rw [h] <;> decide
  have hgate : ∀ (s' : Store) (t : String), tierGate s' u t =
      if tierActiveOk s' t = false then some .tierInvalid else none := by
    intro s' t
    unfold tierGate tierActiveOk
    cases hc : getCapacityTier s' t with
    | none => simp
    | some tier => cases ha : tier.isActive with
      | false => simp [ha]
      | true => simp [ha, hne]
  refine ⟨?_, ?_, ?_, ?_⟩
  · intro hnone
    exact ⟨⟨fid, b.name, b.date.getD 0, u.id, b.capacityTierId, true⟩,
      by simp [createEventRoute, hne, hnone, hname, hdate]⟩
  · intro t ht hok
    refine ⟨⟨fid, b.name, b.date.getD 0, u.id, b.capacityTierId, true⟩, ?_⟩
    simp [createEventRoute, hne, ht, hgate, hok, hname, hdate]
  · intro qs
    cases ht : b.capacityTierId with
    | none => simp [createEventRoute, hne, ht, hname, hdate]
    | some t =>
      have hq : tierActiveOk { s with quotas := qs } t = tierActiveOk s t := by
        simp [tierActiveOk, getCapacityTier]
      simp only [createEventRoute, hne, false_and, if_false, ht, hgate, hq]
      cases tierActiveOk s t <;> simp [hname, hdate]
  · intro evs
    cases ht : b.capacityTierId with
    | none => simp [createEventRoute, hne, ht, hname, hdate]
    | some t =>
      have hq : tierActiveOk { s with events := evs } t = tierActiveOk s t := by
        simp [tierActiveOk, getCapacityTier]
      simp only [createEventRoute, hne, false_and, if_false, ht, hgate, hq]
      cases tierActiveOk s t <;> simp [hname, hdate]

/-- Witness for `admin_event_creation_skips_quota`: the admin creates an
event on the active tier `small` in `quotaStore` with no quota row for the
admin present at all. -/
theorem admin_event_creation_skips_quota_witness :
    (adminU.role = "admin" ∨ adminU.role = "super_admin")
    ∧ tierActiveOk quotaStore "small" = true
    ∧ (∃ e, (createEventRoute quotaStore adminU
        ⟨some "small", "Gala", some 3⟩ "e12").1 = .created e) :=
  ⟨Or.inl rfl, by decide,
    (admin_event_creation_skips_quota quotaStore adminU
      ⟨some "small", "Gala", some 3⟩ "e12" (Or.inl rfl) (by decide)
      (by decide)).2.1 "small" rfl (by decide)⟩

lemma importCapacity_capped (s : Store) (ev : Event) (tid : String)
    (tier : CapacityTier) (m : Int)
    (htid : ev.capacityTierId = some tid)
    (htier : getCapacityTier s tid = some tier)
    (hunl : tier.isUnlimited = false)
    (hmax : tier.maxGuests = some m) (hm : m ≠ 0) :
    importCapacity s ev =
      if m - ((getGuestsByEvent s ev.id).length : Int) ≤ 0 then .full
      else .limited (m - ((getGuestsByEvent s ev.id).length : Int)).toNat := by
  simp only [importCapacity, htid, htier, hunl, hmax]
  simp [hm]

lemma uploadGuestsRoute_limited (s : Store) (u : User) (eid : String)
    (ev : Event) (records : List GuestRecord) (rem : Nat)
    (hev : getEvent s eid = some ev) (hauth : ownsOrBypasses u ev = true)
    (hrem : importCapacity s ev = .limited rem) :
    (uploadGuestsRoute s u eid records).1 = .ok (min records.length rem)
    ∧ (uploadGuestsRoute s u eid records).2.guests.length
        = s.guests.length + min records.length rem := by
  have hne : ¬ (ownsOrBypasses u ev = false) := by simp [hauth]
  have hshape : uploadGuestsRoute s u eid records
      = (.ok (if (records.map (fun r => r.toGuest eid)).length > rem
            then ((records.map (fun r => r.toGuest eid)).take rem).length
            else (records.map (fun r => r.toGuest eid)).length),
          createAuditLog (createGuests s
            (if (records.map (fun r => r.toGuest eid)).length > rem
             then (records.map (fun r => r.toGuest eid)).take rem
             else records.map (fun r => r.toGuest eid)))
            ⟨some eid, u.id, "upload_guests", none⟩) := by
    simp only [uploadGuestsRoute, hev, if_neg hne, hrem]
    by_cases h : (records.map (fun r => r.toGuest eid)).length > rem
    · simp only [if_pos h]
    · simp only [if_neg h]
  rw [hshape]
  constructor
  · simp only [List.length_map]
    by_cases h : records.length > rem
    · rw [if_pos h, List.length_take, List.length_map]
      simp only [UploadResponse.ok.injEq]
      omega
    · rw [if_neg h]
      simp only [UploadResponse.ok.injEq]
      omega
  · simp only [createGuests, createAuditLog, List.length_append,
      List.length_map]
    by_cases h : records.length > rem
    · rw [if_pos h, List.length_take, List.length_map]
      omega
    · rw [if_neg h, List.length_map]
      omega

lemma uploadGuestsRoute_unlimited (s : Store) (u : User) (eid : String)
    (ev : Event) (records : List GuestRecord)
    (hev : getEvent s eid = some ev) (hauth : ownsOrBypasses u ev = true)
    (hunlim : importCapacity s ev = .unlimited) :
    (uploadGuestsRoute s u eid records).1 = .ok records.length
    ∧ (uploadGuestsRoute s u eid records).2.guests.length
        = s.guests.length + records.length := by
  have hne : ¬ (ownsOrBypasses u ev = false) := by simp [hauth]
  constructor
  · simp only [uploadGuestsRoute, hev, if_neg hne, hunlim, List.length_map]
  · simp only [uploadGuestsRoute, hev, if_neg hne, hunlim, createGuests,
      createAuditLog, List.length_append, List.length_map]

/-- C4 counterexample: importing a single record into `e1` — whose `tiny`
tier caps `maxGuests` at 2 while the event already holds 2 guests — does
NOT create `min(K, max(0, M-C)) = 0` guests with a dropped-count report:
the handler rejects the whole batch with the event-full error and changes
nothing, refuting the never-fail-the-batch part of the claim. -/
theorem upload_full_batch_rejected :
    uploadGuestsRoute capacityStore mgr1 "e1" [demoRecord]
      = (.eventFull, capacityStore)
    ∧ UploadResponse.eventFull ≠ UploadResponse.ok 0 :=
  ⟨by decide, by decide⟩

/-- C4 amended: for an event whose resolvable, non-unlimited tier has a
present, nonzero `maxGuests` M and current guest count C, a bulk import of
K records creates exactly `min(K, M-C)` guests and reports that count when
`C < M`; but when `C ≥ M` the whole batch IS rejected with the event-full
error (nothing created) — truncate-and-report applies only while at least
one slot remains.  Importing into an event with no tier, an unresolvable
tier, or an unlimited tier always creates all K records. -/
theorem upload_guests_capacity (s : Store) (u : User) (eid : String)
    (ev : Event) (records : List GuestRecord)
    (hev : getEvent s eid = some ev)
    (hauth : ownsOrBypasses u ev = true) :
    (∀ tid tier m, ev.capacityTierId = some tid →
      getCapacityTier s tid = some tier → tier.isUnlimited = false →
      tier.maxGuests = some m → m ≠ 0 →
      ((((getGuestsByEvent s ev.id).length : Int) ≥ m →
        uploadGuestsRoute s u eid records = (.eventFull, s))
      ∧ (((getGuestsByEvent s ev.id).length : Int) < m →
        (uploadGuestsRoute s u eid records).1
            = .ok (min records.length
                (m - ((getGuestsByEvent s ev.id).length : Int)).toNat)
        ∧ (uploadGuestsRoute s u eid records).2.guests.length
            = s.guests.length + min records.length
                (m - ((getGuestsByEvent s ev.id).length : Int)).toNat)))
    ∧ (importCapacity s ev = .unlimited →
      (uploadGuestsRoute s u eid records).1 = .ok records.length
      ∧ (uploadGuestsRoute s u eid records).2.guests.length
          = s.guests.length + records.length)
    ∧ (ev.capacityTierId = none → importCapacity s ev = .unlimited)
    ∧ (∀ tid, ev.capacityTierId = some tid → getCapacityTier s tid = none →
      importCapacity s ev = .unlimited)
    ∧ (∀ tid tier, ev.capacityTierId = some tid →
      getCapacityTier s tid = some tier → tier.isUnlimited = true →
      importCapacity s ev = .unlimited) := by
  refine ⟨?_, ?_, ?_, ?_, ?_⟩
  · intro tid tier m htid htier hunl hmax hm
    have hcap := importCapacity_capped s ev tid tier m htid htier hunl hmax hm
    constructor
    · intro hge
      have hfull : importCapacity s ev = .full := by
        rw [hcap, if_pos (by omega)]
      have hne : ¬ (ownsOrBypasses u ev = false) := by simp [hauth]
      simp only [uploadGuestsRoute, hev, if_neg hne, hfull]
    · intro hlt
      have hrem : importCapacity s ev
          = .limited (m - ((getGuestsByEvent s ev.id).length : Int)).toNat := by
        rw [hcap, if_neg (by omega)]
      exact uploadGuestsRoute_limited s u eid ev records _ hev hauth hrem
  · intro hunlim
    exact uploadGuestsRoute_unlimited s u eid ev records hev hauth hunlim
  · intro hnone
    simp only [importCapacity, hnone]
  · intro tid htid hmiss
    simp only [importCapacity, htid, hmiss]
  · intro tid tier htid htier hunl
    simp only [importCapacity, htid, htier, hunl]
    simp

/-- Witness for `upload_guests_capacity`: the full event `e1` of
`capacityStore` (tier max 2, 2 guests) rejects a one-record import. -/
theorem upload_guests_capacity_witness :
    getEvent capacityStore "e1"
      = some ⟨"e1", "Launch", 1, "mgr1", some "tiny", true⟩
    ∧ uploadGuestsRoute capacityStore mgr1 "e1" [demoRecord]
      = (.eventFull, capacityStore) :=
  ⟨by decide,
    ((upload_guests_capacity capacityStore mgr1 "e1"
        ⟨"e1", "Launch", 1, "mgr1", some "tiny", true⟩ [demoRecord]
        (by decide) (by decide)).1 "tiny" tinyTier 2 rfl (by decide)
        (by decide) (by decide) (by decide)).1 (by decide)⟩

lemma addGuestBlocked_capped (s : Store) (ev : Event) (tid : String)
    (tier : CapacityTier) (m : Int)
    (htid : ev.capacityTierId = some tid)
    (htier : getCapacityTier s tid = some tier)
    (hunl : tier.isUnlimited = false)
    (hmax : tier.maxGuests = some m) (hm : m ≠ 0) :
    addGuestBlocked s ev
      = decide (((getGuestsByEvent s ev.id).length : Int) ≥ m) := by
  simp only [addGuestBlocked, htid, htier, hunl, hmax]
  simp [hm]

/-- C7 counterexample: two gaps between the claim and the code.  Event `e0`
sits on the non-unlimited `zero` tier with `maxGuests = 0` and holds 0
guests — the current count has reached `maxGuests`, yet the add is NOT
rejected: the JavaScript truthiness guard `tier.maxGuests` skips the whole
capacity check for a 0 cap and the guest is created.  Event `e2` (tier max
2, 0 guests) is below capacity, yet an add whose name is all whitespace is
not created — it is rejected by the required-name validation. -/
theorem add_guest_capacity_gaps :
    (addGuestRoute capacityStore mgr1 "e0" ⟨"Carol", "", "", 0, ""⟩
        "g9" "DDDD-DDDD-DDDD").1.isOk = true
    ∧ (addGuestRoute capacityStore mgr1 "e0" ⟨"Carol", "", "", 0, ""⟩
        "g9" "DDDD-DDDD-DDDD").2.guests.length
        = capacityStore.guests.length + 1
    ∧ zeroTier.isUnlimited = false
    ∧ zeroTier.maxGuests = some 0
    ∧ (getGuestsByEvent capacityStore "e0").length = 0
    ∧ addGuestRoute capacityStore mgr1 "e2" ⟨" ", "", "", 0, ""⟩
        "g9" "DDDD-DDDD-DDDD" = (.nameRequired, capacityStore)
    ∧ (getGuestsByEvent capacityStore "e2").length = 0 :=
  ⟨by decide, by decide, by decide, by decide, by decide, by decide, by decide⟩

/-- C7 amended: for an event whose resolvable, non-unlimited tier has a
present and NONZERO `maxGuests` M, a single-guest add is rejected with the
event-full error (and nothing changes) exactly when the current count has
reached M; below M — and likewise with no tier, an unresolvable tier, an
unlimited tier, or a falsy `maxGuests` (absent or 0, which the handler
treats as no limit) — the guest is created, provided the request passes
the required-name validation (a name that is empty after trimming is
rejected without a guest being created). -/
theorem add_guest_capacity (s : Store) (u : User) (eid : String)
    (ev : Event) (b : AddGuestBody) (fid fcode : String)
    (hev : getEvent s eid = some ev)
    (hauth : ownsOrBypasses u ev = true) :
    (∀ tid tier m, ev.capacityTierId = some tid →
      getCapacityTier s tid = some tier → tier.isUnlimited = false →
      tier.maxGuests = some m → m ≠ 0 →
      ((((getGuestsByEvent s ev.id).length : Int) ≥ m →
        addGuestRoute s u eid b fid fcode = (.eventFull, s))
      ∧ (((getGuestsByEvent s ev.id).length : Int) < m →
        addGuestBlocked s ev = false)))
    ∧ (addGuestBlocked s ev = false → jsTrim b.name ≠ "" →
      (addGuestRoute s u eid b fid fcode).1.isOk = true
      ∧ (addGuestRoute s u eid b fid fcode).2.guests.length
          = s.guests.length + 1)
    ∧ (addGuestBlocked s ev = false → jsTrim b.name = "" →
      addGuestRoute s u eid b fid fcode = (.nameRequired, s)) := by
  have hne : ¬ (ownsOrBypasses u ev = false) := by simp [hauth]
  refine ⟨?_, ?_, ?_⟩
  · intro tid tier m htid htier hunl hmax hm
    have hcap := addGuestBlocked_capped s ev tid tier m htid htier hunl hmax hm
    constructor
    · intro hge
      have hblocked : addGuestBlocked s ev = true := by
        rw [hcap]
        exact decide_eq_true hge
      simp only [addGuestRoute, hev, if_neg hne, hblocked, if_true]
    · intro hlt
      rw [hcap]
      exact decide_eq_false (by omega)
  · intro hblocked hname
    constructor
    · simp [addGuestRoute, hev, if_neg hne, hblocked, hname,
        AddGuestResponse.isOk]
    · simp [addGuestRoute, hev, if_neg hne, hblocked, hname, createGuest,
        createAuditLog]
  · intro hblocked hname
    simp [addGuestRoute, hev, if_neg hne, hblocked, hname]

/-- Witness for `add_guest_capacity`: the full event `e1` of
`capacityStore` (tier max 2, 2 guests) rejects a valid single add. -/
theorem add_guest_capacity_witness :
    getEvent capacityStore "e1"
      = some ⟨"e1", "Launch", 1, "mgr1", some "tiny", true⟩
    ∧ addGuestRoute capacityStore mgr1 "e1" ⟨"Carol", "", "", 0, ""⟩
        "g9" "DDDD-DDDD-DDDD" = (.eventFull, capacityStore) :=
  ⟨by decide,
    ((add_guest_capacity capacityStore mgr1 "e1"
        ⟨"e1", "Launch", 1, "mgr1", some "tiny", true⟩ ⟨"Carol", "", "", 0, ""⟩
        "g9" "DDDD-DDDD-DDDD" (by decide) (by decide)).1 "tiny" tinyTier 2
        rfl (by decide) (by decide) (by decide) (by decide)).1 (by decide)⟩

/-- C8 counterexample: capacity-tier creation accepts a body with
`isUnlimited = false` whose `maxGuests` (1) is below `minGuests` (5), and
one whose `maxGuests` is absent, storing the violating tiers verbatim; and
the update route applies a patch that raises `minGuests` above the stored
`maxGuests` without any validation — all three are accepted although the
claim says they must be rejected. -/
theorem tier_validation_missing :
    createCapacityTierRoute emptyStore
        ⟨"A", some 5, some 1, some false, none, none⟩ "t1"
      = (.okTier ⟨"t1", "A", 5, some 1, false, true, 0⟩,
          createCapacityTier emptyStore ⟨"t1", "A", 5, some 1, false, true, 0⟩)
    ∧ (createCapacityTierRoute emptyStore
        ⟨"B", none, none, some false, none, none⟩ "t2").1
      = .okTier ⟨"t2", "B", 0, none, false, true, 0⟩
    ∧ (updateCapacityTierRoute capacityStore "tiny"
        ⟨none, some 20, none, none, none, none⟩).1
      = .okTier ⟨"tiny", "Tiny", 20, some 2, false, true, 0⟩ :=
  ⟨by decide, by decide, by decide⟩

/-- C8 amended: creation validates only that `name` is non-empty and that
`minGuests`, when supplied, is ≥ 0; every body passing those two checks is
stored verbatim — the existence of `maxGuests` when `isUnlimited` is false
and the relation `maxGuests ≥ minGuests` are never enforced.  Update
validates only that the tier exists and applies the patch verbatim.
Stored tiers with `isUnlimited = false` can therefore violate
`maxGuests ≥ minGuests ≥ 0`. -/
theorem tier_validation_actual (s : Store) (b : TierCreateBody)
    (fid tid : String) (p : TierPatchBody) :
    (b.name ≠ "" → (∀ n, b.minGuests = some n → 0 ≤ n) →
      createCapacityTierRoute s b fid
        = (.okTier ⟨fid, b.name, b.minGuests.getD 0, b.maxGuests,
            b.isUnlimited.getD false, b.isActive.getD true,
            b.sortOrder.getD 0⟩,
          createCapacityTier s ⟨fid, b.name, b.minGuests.getD 0, b.maxGuests,
            b.isUnlimited.getD false, b.isActive.getD true,
            b.sortOrder.getD 0⟩))
    ∧ (b.name = "" → createCapacityTierRoute s b fid = (.badRequest, s))
    ∧ (∀ n, b.minGuests = some n → n < 0 →
      createCapacityTierRoute s b fid = (.badRequest, s))
    ∧ (∀ t, getCapacityTier s tid = some t →
      (updateCapacityTierRoute s tid p).2.tiers
        = s.tiers.map (fun x => if x.id = tid then applyTierPatch x p else x)) := by
  refine ⟨?_, ?_, ?_, ?_⟩
  · intro hname hmin
    have hvalid : tierBodyValid b = true := by
      simp only [tierBodyValid, Bool.and_eq_true, decide_eq_true_eq]
      refine ⟨hname, ?_⟩
      cases hmg : b.minGuests with
      | none => simp
      | some n => simpa using hmin n hmg
    simp [createCapacityTierRoute, hvalid]
  · intro hname
    have hvalid : tierBodyValid b = false := by
      simp [tierBodyValid, hname]
    simp [createCapacityTierRoute, hvalid]
  · intro n hmg hneg
    have hvalid : tierBodyValid b = false := by
      simp only [tierBodyValid, hmg, Bool.and_eq_false_iff]
      right
      simpa using hneg
    simp [createCapacityTierRoute, hvalid]
  · intro t ht
    simp only [updateCapacityTierRoute, ht]
    cases hf : (s.tiers.map (fun x =>
        if x.id = tid then applyTierPatch x p else x)).find?
        (fun x => x.id = tid) with
    | none => simp
    | some x => simp

/-- Witness for `tier_validation_actual`: the violating create body
`⟨"A", 5, max 1, not unlimited⟩` passes the actual validation and is
stored as-is. -/
theorem tier_validation_actual_witness :
    ("A" : String) ≠ ""
    ∧ createCapacityTierRoute emptyStore
        ⟨"A", some 5, some 1, some false, none, none⟩ "t1"
      = (.okTier ⟨"t1", "A", 5, some 1, false, true, 0⟩,
          createCapacityTier emptyStore
            ⟨"t1", "A", 5, some 1, false, true, 0⟩) :=
  ⟨by decide,
    (tier_validation_actual emptyStore
        ⟨"A", some 5, some 1, some false, none, none⟩ "t1" "t1"
        ⟨none, none, none, none, none, none⟩).1 (by decide)
      (by intro n hn; cases hn; decide)⟩

lemma filter_update_quota (l : List QuotaRow) (u t : String) (q : Int) :
    (l.map (fun r => if r.userId = u ∧ r.capacityTierId = t
        then { r with quota := q } else r)).filter
      (fun r => r.userId = u ∧ r.capacityTierId = t)
      = (l.filter (fun r => r.userId = u ∧ r.capacityTierId = t)).map
          (fun _ => ⟨u, t, q⟩) := by
  induction l with
  | nil => rfl
  | cons r rest ih =>
    obtain ⟨ru, rt, rq⟩ := r
    by_cases h : ru = u ∧ rt = t
    · obtain ⟨hu, ht⟩ := h
      subst hu
      subst ht
      simpa using ih
    · simp only [List.map_cons]
      rw [if_neg (by simpa using h)]
      rw [List.filter_cons, List.filter_cons]
      simp only [decide_eq_true_eq]
      rw [if_neg (by simpa using h), if_neg (by simpa using h)]
      exact ih

lemma setUserTierQuota_update (s : Store) (u t : String) (q : Int)
    (hpos : (quotaRowsFor s u t).length > 0) :
    quotaRowsFor (setUserTierQuota s u t q) u t
      = (quotaRowsFor s u t).map (fun _ => ⟨u, t, q⟩) := by
  unfold setUserTierQuota
  rw [if_pos hpos]
  unfold quotaRowsFor
  exact filter_update_quota s.quotas u t q

lemma setUserTierQuota_insert (s : Store) (u t : String) (q : Int)
    (hzero : (quotaRowsFor s u t).length = 0) :
    quotaRowsFor (setUserTierQuota s u t q) u t = [⟨u, t, q⟩] := by
  unfold setUserTierQuota
  rw [if_neg (by omega)]
  unfold quotaRowsFor at hzero ⊢
  rw [List.filter_append]
  rw [List.length_eq_zero] at hzero
  rw [hzero]
  simp

/-- C6: `setUserTierQuota` has full-replace upsert semantics per
(user, tier) pair: starting from any store holding at most one quota row
for the pair — the shape the operation itself maintains, and the only
mutation path — calling it with 5 and then with 3 leaves exactly one row
for the pair, whose quota is 3 (never two rows, never an added 8). -/
theorem setUserTierQuota_upsert (s : Store) (u t : String)
    (h : (quotaRowsFor s u t).length ≤ 1) :
    quotaRowsFor (setUserTierQuota (setUserTierQuota s u t 5) u t 3) u t
      = [⟨u, t, 3⟩] := by
  rcases Nat.eq_zero_or_pos (quotaRowsFor s u t).length with hz | hpos
  · have h5 := setUserTierQuota_insert s u t 5 hz
    have h3 := setUserTierQuota_update (setUserTierQuota s u t 5) u t 3
      (by rw [h5]; simp)
    rw [h3, h5]
    rfl
  · have hone : (quotaRowsFor s u t).length = 1 := by omega
    obtain ⟨r, hr⟩ := List.length_eq_one.mp hone
    have h5 := setUserTierQuota_update s u t 5 hpos
    have h3 := setUserTierQuota_update (setUserTierQuota s u t 5) u t 3
      (by rw [h5, List.length_map]; omega)
    rw [h3, h5, hr]
    rfl

/-- Witness for `setUserTierQuota_upsert`: the empty store (no quota row
for the pair) ends with exactly the one row of value 3. -/
theorem setUserTierQuota_upsert_witness :
    (quotaRowsFor emptyStore "u1" "t1").length ≤ 1
    ∧ quotaRowsFor
        (setUserTierQuota (setUserTierQuota emptyStore "u1" "t1" 5)
          "u1" "t1" 3) "u1" "t1"
      = [⟨"u1", "t1", 3⟩] :=
  ⟨by decide, setUserTierQuota_upsert emptyStore "u1" "t1" (by decide)⟩
